import Mathlib

/-!
Verification development for the Theeni POS backend (`app/main.py`,
`app/security.py`): a shallow embedding of its data model, the
order-creation transaction, the delete endpoints, the reporting
aggregations and the token/authorization layer, with theorems checking
the specification's claims against the embedded code.

Money, quantities and timestamps are embedded as rationals (`ℚ`);
timestamps are measured in days, so a calendar date `d : ℤ` corresponds
to the timestamp `(d : ℚ)` (midnight of that day).
-/

namespace Theeni

/-- Row of the `items` table
(`id, name, quick_code, price, unit, is_discount_eligible, image_url`). -/
structure ItemRow where
  id : Nat
  name : String
  quick_code : Option String
  price : ℚ
  unit : Option String
  is_discount_eligible : Bool
  image_url : Option String
  deriving Repr, DecidableEq

/-- Row of the `customers` table. -/
structure CustomerRow where
  id : Nat
  name : String
  phone_number : Option String
  email : Option String
  deriving Repr, DecidableEq

/-- Row of the `orders` table.  `create_order` inserts `subtotal`,
`discount_percentage`, `customer_id`; `created_at` is the server-assigned
timestamp.  `final_total` and `discount_amount` are stored columns that the
reports read back (see `mkOrderRow` for how they are populated). -/
structure OrderRow where
  id : Nat
  created_at : ℚ
  subtotal : ℚ
  discount_percentage : ℚ
  customer_id : Option Nat
  final_total : ℚ
  discount_amount : ℚ
  deriving Repr, DecidableEq

/-- Row of the `order_items` table.  `subtotal` is the stored per-line
subtotal column that the reports read back. -/
structure OrderItemRow where
  id : Nat
  order_id : Nat
  item_id : Option Nat
  quantity : ℚ
  price_per_unit : ℚ
  subtotal : ℚ
  deriving Repr, DecidableEq

/-- Row of the `users` table, mirroring `security.UserInDB`. -/
structure UserInDB where
  id : Nat
  username : String
  hashed_password : String
  role : String
  deriving Repr, DecidableEq

/-- The persistent store: the five tables of the logical schema plus the
serial id counters of the store's native identity generation. -/
structure DB where
  items : List ItemRow
  customers : List CustomerRow
  orders : List OrderRow
  order_items : List OrderItemRow
  users : List UserInDB
  next_order_id : Nat
  next_order_item_id : Nat
  next_customer_id : Nat
  deriving Repr, DecidableEq

/-- Errors surfaced by the endpoints (HTTP 401 / 403 / 404 / 500). -/
inductive ApiError where
  | unauthorized
  | forbidden
  | notFound
  | serverError
  deriving Repr, DecidableEq

/-- Request model `OrderItemCreate` (`id, quantity, price`). -/
structure OrderItemCreate where
  id : Nat
  quantity : ℚ
  price : ℚ
  deriving Repr, DecidableEq

/-- Request model `OrderCreate` (`cart, discountPercentage, customer_id`). -/
structure OrderCreate where
  cart : List OrderItemCreate
  discountPercentage : ℚ
  customer_id : Option Nat
  deriving Repr, DecidableEq

/-- Foreign-key check for `order_items.item_id → items.id` against the
`items` table (Modelled from the spec: the persisted schema declares this
foreign key; the schema file itself is not part of `src/`).  A null
reference always passes; a non-null one must name an existing item. -/
def itemFkOk (items : List ItemRow) (item_id : Option Nat) : Bool :=
  match item_id with
  | none => true
  | some i => items.any (fun it => it.id == i)

/-- Foreign-key check for `orders.customer_id → customers.id` against the
`customers` table (Modelled from the spec: declared in the persisted
schema, not in `src/`). -/
def customerFkOk (customers : List CustomerRow) (customer_id : Option Nat) : Bool :=
  match customer_id with
  | none => true
  | some c => customers.any (fun cu => cu.id == c)

/-- Modelled from the spec: `final_total` and `discount_amount` are columns
computed server-side from `subtotal` and `discount_percentage`
(`final_total = subtotal × (1 − discount_percentage/100)`,
`discount_amount = subtotal − final_total`); the schema that populates them
is not in `src/`.  `created_at` is the server-assigned timestamp `now`. -/
def mkOrderRow (id : Nat) (now subtotal dp : ℚ) (customer_id : Option Nat) :
    OrderRow :=
  let ft := subtotal * (1 - dp / 100)
  { id := id, created_at := now, subtotal := subtotal,
    discount_percentage := dp, customer_id := customer_id,
    final_total := ft, discount_amount := subtotal - ft }

/-- The rows `create_order` passes to `executemany` for the line-item bulk
insert: one per cart entry, referencing the fresh order id and capturing the
caller-supplied quantity and price; ids come from the serial counter. -/
def cartRows (order_id first_id : Nat) (cart : List OrderItemCreate) :
    List OrderItemRow :=
  (List.enumFrom first_id cart).map (fun p =>
    { id := p.1, order_id := order_id, item_id := some p.2.id,
      quantity := p.2.quantity, price_per_unit := p.2.price,
      subtotal := p.2.quantity * p.2.price })

/-- The sequential `executemany` over the line-item rows: each insert is
subject to the `order_items.item_id` foreign key and the whole batch fails
at the first violating row. -/
def insertOrderItemsLoop (db : DB) : List OrderItemRow → Option DB
  | [] => some db
  | r :: rest =>
    if itemFkOk db.items r.item_id then
      insertOrderItemsLoop { db with order_items := db.order_items ++ [r] } rest
    else none

/-- `POST /api/v1/orders` (`create_order` in `app/main.py`): compute
`subtotal = Σ quantity × price` over the cart from the caller-supplied
values, then — inside one transaction — insert the order header and bulk
insert the line items.  Any failure raises out of
`async with conn.transaction()`, which rolls the whole transaction back, so
the returned state is the original `db`.  `now` models the server clock. -/
def create_order (db : DB) (now : ℚ) (order_data : OrderCreate) :
    DB × Except ApiError Nat :=
  let subtotal := (order_data.cart.map (fun item => item.quantity * item.price)).sum
  if customerFkOk db.customers order_data.customer_id then
    let order_id := db.next_order_id
    let header := mkOrderRow order_id now subtotal order_data.discountPercentage
      order_data.customer_id
    let db1 : DB :=
      { db with orders := db.orders ++ [header],
                next_order_id := order_id + 1,
                next_order_item_id :=
                  db.next_order_item_id + order_data.cart.length }
    match insertOrderItemsLoop db1 (cartRows order_id db.next_order_item_id order_data.cart) with
    | some db2 => (db2, Except.ok order_id)
    | none => (db, Except.error ApiError.serverError)
  else (db, Except.error ApiError.serverError)

/-- A calendar date, counted in days; the timestamp of its midnight is its
cast into `ℚ`.  (`date` values in the Python code.) -/
def date_ts (d : ℤ) : ℚ := (d : ℚ)

/-- The date-range predicate of the report SQL:
`created_at >= start_date AND created_at < end_date_exclusive`. -/
def inSalesRange (start_date end_date_exclusive : ℤ) (created_at : ℚ) : Bool :=
  decide (date_ts start_date ≤ created_at ∧ created_at < date_ts end_date_exclusive)

/-- `ReportSummary` response model. -/
structure ReportSummary where
  total_revenue : ℚ
  total_orders : Nat
  total_discount_given : ℚ
  deriving Repr, DecidableEq

/-- `ReportSalesByItem` response model. -/
structure ReportSalesByItem where
  id : Nat
  name : String
  total_quantity_sold : ℚ
  total_revenue_from_item : ℚ
  deriving Repr, DecidableEq

/-- `SalesReport` response model. -/
structure SalesReport where
  summary : ReportSummary
  sales_by_item : List ReportSalesByItem
  deriving Repr, DecidableEq

/-- The join of the sales-breakdown query:
`FROM order_items oi JOIN items i ON oi.item_id = i.id
 JOIN orders o ON oi.order_id = o.id WHERE o.created_at` in range. -/
def salesJoinRows (db : DB) (s eExcl : ℤ) :
    List (OrderItemRow × ItemRow × OrderRow) :=
  db.order_items.flatMap (fun oi =>
    db.items.flatMap (fun i =>
      db.orders.flatMap (fun o =>
        if oi.item_id == some i.id && oi.order_id == o.id
            && inSalesRange s eExcl o.created_at
        then [(oi, i, o)] else [])))

/-- `GROUP BY i.id, i.name` over the join rows, summing `oi.quantity` and
`oi.subtotal` per group. -/
def salesByItemGroups (db : DB) (s eExcl : ℤ) : List ReportSalesByItem :=
  let rows := salesJoinRows db s eExcl
  ((rows.map (fun r => (r.2.1.id, r.2.1.name))).dedup).map (fun k =>
    let grp := rows.filter (fun r => (r.2.1.id, r.2.1.name) == k)
    { id := k.1, name := k.2,
      total_quantity_sold := (grp.map (fun r => r.1.quantity)).sum,
      total_revenue_from_item := (grp.map (fun r => r.1.subtotal)).sum })

/-- `GET /api/v1/reports/sales` (`get_sales_report`): the user-facing
`end_date` is advanced by one day to an exclusive bound; the summary
aggregates `orders` rows in range (`COALESCE(SUM(...), 0)`, `COUNT(id)`);
the breakdown groups the `order_items ⋈ items ⋈ orders` join by item and is
sorted by revenue descending. -/
def get_sales_report (db : DB) (start_date end_date : ℤ) : SalesReport :=
  let eExcl := end_date + 1
  let ordersIn := db.orders.filter (fun o => inSalesRange start_date eExcl o.created_at)
  { summary :=
      { total_revenue := (ordersIn.map (fun o => o.final_total)).sum,
        total_orders := ordersIn.length,
        total_discount_given := (ordersIn.map (fun o => o.discount_amount)).sum },
    sales_by_item :=
      List.insertionSort
        (fun a b => b.total_revenue_from_item ≤ a.total_revenue_from_item)
        (salesByItemGroups db start_date eExcl) }

/-- `CustomerReportItem` response model. -/
structure CustomerReportItem where
  id : Nat
  name : String
  phone_number : Option String
  email : Option String
  total_orders : Nat
  total_spent : ℚ
  deriving Repr, DecidableEq

/-- The `orders` rows the customer-report stats subquery ranges over: the
optional `WHERE` clause is added only when both dates are supplied
(`if start_date and end_date:`); otherwise the stats are lifetime. -/
def customerStatsOrders (db : DB) (start_date end_date : Option ℤ) :
    List OrderRow :=
  match start_date, end_date with
  | some s, some e => db.orders.filter (fun o => inSalesRange s (e + 1) o.created_at)
  | _, _ => db.orders

/-- The stats subquery of `get_customer_report`:
`SELECT customer_id, COUNT(id), SUM(final_total) FROM orders [WHERE range]
 GROUP BY customer_id`. -/
def statsSubquery (db : DB) (start_date end_date : Option ℤ) :
    List (Option Nat × Nat × ℚ) :=
  let orders := customerStatsOrders db start_date end_date
  ((orders.map (fun o => o.customer_id)).dedup).map (fun cid =>
    let grp := orders.filter (fun o => o.customer_id == cid)
    (cid, grp.length, (grp.map (fun o => o.final_total)).sum))

/-- `GET /api/v1/reports/customers` (`get_customer_report`): every customer,
`LEFT JOIN`ed with the stats subquery on `c.id = stats.customer_id`, totals
`COALESCE`d to 0 when no stats row matches, sorted by `total_spent DESC`. -/
def get_customer_report (db : DB) (start_date end_date : Option ℤ) :
    List CustomerReportItem :=
  let stats := statsSubquery db start_date end_date
  let rows := db.customers.map (fun c =>
    match stats.find? (fun st => st.1 == some c.id) with
    | some st =>
      { id := c.id, name := c.name, phone_number := c.phone_number,
        email := c.email, total_orders := st.2.1, total_spent := st.2.2 }
    | none =>
      { id := c.id, name := c.name, phone_number := c.phone_number,
        email := c.email, total_orders := 0, total_spent := 0 })
  List.insertionSort (fun a b => b.total_spent ≤ a.total_spent) rows

/-- `OrderDetailLineItem` response model. -/
structure OrderDetailLineItem where
  id : Nat
  item_name : String
  quantity : ℚ
  price_per_unit : ℚ
  subtotal : ℚ
  deriving Repr, DecidableEq

/-- `GET /api/v1/orders/{order_id}/items` (`get_order_line_items`):
`order_items oi JOIN items i ON oi.item_id = i.id WHERE oi.order_id = %s`,
resolving the item name through the inner join. -/
def get_order_line_items (db : DB) (order_id : Nat) : List OrderDetailLineItem :=
  db.order_items.flatMap (fun oi =>
    db.items.flatMap (fun i =>
      if oi.item_id == some i.id && oi.order_id == order_id then
        [{ id := oi.id, item_name := i.name, quantity := oi.quantity,
           price_per_unit := oi.price_per_unit, subtotal := oi.subtotal }]
      else []))

/-- `DELETE /api/v1/items/{item_id}` (`delete_item`): 404 when the id is
absent, otherwise delete the row.  The nulling of `order_items.item_id` is
Modelled from the spec: the schema's `ON DELETE SET NULL` on
`order_items.item_id → items.id` (named in the code comment) lives in the
schema, which is not in `src/`. -/
def delete_item (db : DB) (item_id : Nat) : DB × Except ApiError Unit :=
  if db.items.any (fun i => i.id == item_id) then
    ({ db with
        items := db.items.filter (fun i => !(i.id == item_id)),
        order_items := db.order_items.map (fun oi =>
          if oi.item_id == some item_id then { oi with item_id := none } else oi) },
      Except.ok ())
  else (db, Except.error ApiError.notFound)

/-- `DELETE /api/v1/customers/{customer_id}` (`delete_customer`): 404 when
the id is absent, otherwise delete the row.  The nulling of
`orders.customer_id` is Modelled from the spec: the schema's
`ON DELETE SET NULL` on `orders.customer_id → customers.id` (named in the
code comment) lives in the schema, which is not in `src/`. -/
def delete_customer (db : DB) (customer_id : Nat) : DB × Except ApiError Unit :=
  if db.customers.any (fun c => c.id == customer_id) then
    ({ db with
        customers := db.customers.filter (fun c => !(c.id == customer_id)),
        orders := db.orders.map (fun o =>
          if o.customer_id == some customer_id then { o with customer_id := none }
          else o) },
      Except.ok ())
  else (db, Except.error ApiError.notFound)

/-- `CustomerCreate` request model. -/
structure CustomerCreate where
  name : String
  phone_number : Option String
  email : Option String
  deriving Repr, DecidableEq

/-- The body of `create_customer`: insert the row and return it
(`RETURNING id, name, phone_number, email`). -/
def create_customer (db : DB) (customer_data : CustomerCreate) :
    DB × CustomerRow :=
  let row : CustomerRow :=
    { id := db.next_customer_id, name := customer_data.name,
      phone_number := customer_data.phone_number,
      email := customer_data.email }
  ({ db with customers := db.customers ++ [row],
             next_customer_id := db.next_customer_id + 1 }, row)

/-- The claims a token carries (`sub`, `role`, `exp`). -/
structure TokenClaims where
  sub : Option String
  role : Option String
  exp : ℚ
  deriving Repr, DecidableEq

/-- A bearer token as presented on the wire: either not a well-formed JWT at
all, or a payload signed with some key under some algorithm. -/
inductive TokenWire where
  | malformed
  | signed (claims : TokenClaims) (key : String) (alg : String)
  deriving Repr, DecidableEq

/-- Modelled from the spec / the `jose` library interface used by
`security.py`: `jwt.decode(token, key, algorithms)` yields the payload only
when the token is well formed, its signature verifies against `key` under an
algorithm in `algorithms`, and the embedded expiry has not passed; any other
token raises `JWTError`. -/
def jwt_decode (tw : TokenWire) (key : String) (algorithms : List String)
    (now : ℚ) : Option TokenClaims :=
  match tw with
  | TokenWire.malformed => none
  | TokenWire.signed claims k alg =>
    if k == key && algorithms.contains alg && decide (now < claims.exp)
    then some claims else none

/-- `app/settings.py` `Settings`: the fields the security layer reads. -/
structure Settings where
  SECRET_KEY : String
  ALGORITHM : String := "HS256"
  ACCESS_TOKEN_EXPIRE_MINUTES : Nat := 60 * 24
  deriving Repr, DecidableEq

/-- `security.get_user`: `SELECT id, username, hashed_password, role FROM
users WHERE username = %s` and take the first row, if any. -/
def get_user (db : DB) (username : String) : Option UserInDB :=
  db.users.find? (fun u => u.username == username)

/-- `security.get_current_user`: decode the token against
`settings.SECRET_KEY` / `settings.ALGORITHM` (401 on any `JWTError`), 401
when the payload has no `sub`, 401 when the subject resolves to no stored
user; otherwise return the stored user. -/
def get_current_user (s : Settings) (db : DB) (now : ℚ) (token : TokenWire) :
    Except ApiError UserInDB :=
  match jwt_decode token s.SECRET_KEY [s.ALGORITHM] now with
  | none => Except.error ApiError.unauthorized
  | some payload =>
    match payload.sub with
    | none => Except.error ApiError.unauthorized
    | some username =>
      match get_user db username with
      | none => Except.error ApiError.unauthorized
      | some user => Except.ok user

/-- `security.get_current_admin_user`, given the already-verified identity
from `get_current_user`: 403 unless `current_user.role == "admin"`. -/
def get_current_admin_user (current_user : UserInDB) :
    Except ApiError UserInDB :=
  if current_user.role ≠ "admin" then Except.error ApiError.forbidden
  else Except.ok current_user

/-- `POST /api/v1/customers` as routed: the handler declares no
authentication dependency (unlike `create_order`'s
`Depends(security.get_current_user)`), so the bearer token — present or
absent — is never consulted. -/
def create_customer_endpoint (db : DB) (_token : Option TokenWire)
    (customer_data : CustomerCreate) : DB × Except ApiError CustomerRow :=
  let res := create_customer db customer_data
  (res.1, Except.ok res.2)

/-! ### Concrete stores and requests used by witnesses and counterexamples -/

/-- The empty store (serial counters start at 1). -/
def emptyDB : DB :=
  { items := [], customers := [], orders := [], order_items := [], users := [],
    next_order_id := 1, next_order_item_id := 1, next_customer_id := 1 }

/-- An item row with the given id, name and price. -/
def mkItem (id : Nat) (name : String) (price : ℚ) : ItemRow :=
  { id := id, name := name, quick_code := none, price := price, unit := none,
    is_discount_eligible := true, image_url := none }

/-- A store holding items 1 and 2 (used by the order-creation scenarios). -/
def dbItems12 : DB :=
  { emptyDB with items := [mkItem 1 "Tea" 10, mkItem 2 "Snack" 5] }

/-- The concrete cart of the spec's scenario:
`[{item 1, qty 2, price 10.00}, {item 2, qty 1, price 5.00}]`, discount 10%. -/
def odScenario : OrderCreate :=
  { cart := [{ id := 1, quantity := 2, price := 10 },
             { id := 2, quantity := 1, price := 5 }],
    discountPercentage := 10, customer_id := none }

/-- A cart whose second line references the nonexistent item 99: its insert
violates the `order_items.item_id` foreign key after the header insert (and
the first line's insert) succeeded. -/
def odBadItem : OrderCreate :=
  { cart := [{ id := 1, quantity := 1, price := 10 },
             { id := 99, quantity := 1, price := 1 }],
    discountPercentage := 0, customer_id := none }

/-- The empty cart. -/
def odEmptyCart : OrderCreate :=
  { cart := [], discountPercentage := 0, customer_id := none }

/-- A cart with a non-positive quantity and an out-of-range discount. -/
def odInvalidValues : OrderCreate :=
  { cart := [{ id := 1, quantity := -1, price := 10 }],
    discountPercentage := 150, customer_id := none }

/-- A store with one order at midnight of day 0 (think `2024-01-01T00:00`). -/
def dbOneOrderDay0 : DB :=
  { emptyDB with
      orders := [mkOrderRow 1 0 10 0 none],
      next_order_id := 2 }

/-- A store with orders at midnight of day 0 and of day 1 (the spec example's
`2024-01-01T00:00` and `2024-01-02T00:00`). -/
def dbTwoOrdersDays01 : DB :=
  { emptyDB with
      orders := [mkOrderRow 1 0 10 0 none, mkOrderRow 2 1 20 0 none],
      next_order_id := 3 }

/-- A store exercising the delete endpoints: customer 1 with an order, item 1
with a line item of that order. -/
def dbDeleteScenario : DB :=
  { emptyDB with
      items := [mkItem 1 "Tea" 10],
      customers := [{ id := 1, name := "Alice", phone_number := none, email := none }],
      orders := [mkOrderRow 1 0 20 0 (some 1)],
      order_items := [{ id := 1, order_id := 1, item_id := some 1,
                        quantity := 2, price_per_unit := 10, subtotal := 20 }],
      next_order_id := 2, next_order_item_id := 2, next_customer_id := 2 }

/-- A store with one line item whose `item_id` has become null and one whose
item still exists, both belonging to order 1, which is in range on day 0. -/
def dbNullItemLine : DB :=
  { emptyDB with
      items := [mkItem 1 "Tea" 10],
      orders := [mkOrderRow 1 0 30 0 none],
      order_items :=
        [{ id := 1, order_id := 1, item_id := some 1,
           quantity := 2, price_per_unit := 10, subtotal := 20 },
         { id := 2, order_id := 1, item_id := none,
           quantity := 1, price_per_unit := 10, subtotal := 10 }],
      next_order_id := 2, next_order_item_id := 3 }

/-- Settings with a concrete secret. -/
def settingsW : Settings := { SECRET_KEY := "k" }

/-- A store holding a regular user and an admin. -/
def dbUsers : DB :=
  { emptyDB with
      users := [{ id := 1, username := "alice", hashed_password := "h1", role := "user" },
                { id := 2, username := "bob", hashed_password := "h2", role := "admin" }] }

/-- A token for `alice`, signed with the right key and algorithm, expiring at
time 10. -/
def tokenAlice : TokenWire :=
  TokenWire.signed { sub := some "alice", role := some "user", exp := 10 } "k" "HS256"

/-- A token signed with a different key. -/
def tokenWrongKey : TokenWire :=
  TokenWire.signed { sub := some "alice", role := some "user", exp := 10 } "other" "HS256"

/-! ### Theorems -/

/-- Loop invariant for the bulk insert: it succeeds exactly when every row
passes the `item_id` foreign-key check (the check only reads `items`, which
the loop never touches), and then the final state is the starting state with
the whole batch appended to `order_items`. -/
theorem insertOrderItemsLoop_eq (db : DB) (rows : List OrderItemRow) :
    insertOrderItemsLoop db rows =
      (if rows.all (fun r => itemFkOk db.items r.item_id) then
        some { db with order_items := db.order_items ++ rows }
      else none) := by
  induction rows generalizing db with
  | nil => simp [insertOrderItemsLoop]
  | cons r rest ih =>
    simp only [insertOrderItemsLoop, List.all_cons]
    by_cases h : itemFkOk db.items r.item_id
    · rw [if_pos h, ih]
      simp only [h, Bool.true_and]
      by_cases hall : rest.all (fun r => itemFkOk db.items r.item_id)
      · simp [hall, List.append_assoc]
      · simp [hall]
    · simp [h]

/-- `List.all` over a map, for a change of element type. -/
theorem all_map_fn {α β : Type} (f : α → β) (l : List α) (p : β → Bool) :
    (l.map f).all p = l.all (fun a => p (f a)) := by
  induction l with
  | nil => rfl
  | cons a l ih => simp [ih]

/-- The line-item batch is as long as the cart. -/
theorem cartRows_length (oid k : Nat) (cart : List OrderItemCreate) :
    (cartRows oid k cart).length = cart.length := by
  simp [cartRows, List.enumFrom_length]

/-- Every row of the batch references the fresh order id. -/
theorem cartRows_order_id (oid k : Nat) (cart : List OrderItemCreate) :
    ∀ r ∈ cartRows oid k cart, r.order_id = oid := by
  intro r hr
  simp only [cartRows, List.mem_map] at hr
  obtain ⟨p, _, rfl⟩ := hr
  rfl

/-- Projecting a batch row through a function that only looks at the cart
entry it came from recovers the map over the cart (the serial ids do not
matter). -/
theorem cartRows_map_subtotal (oid k : Nat) (cart : List OrderItemCreate) :
    (cartRows oid k cart).map (fun r => r.subtotal)
      = cart.map (fun item => item.quantity * item.price) := by
  rw [cartRows, List.map_map]
  conv_rhs => rw [← List.enumFrom_map_snd k cart, List.map_map]
  rfl

/-- The batch-wide foreign-key condition seen by the loop is the
per-cart-entry one (the serial ids play no role in the check). -/
theorem cartRows_all_fk (items : List ItemRow) (oid k : Nat)
    (cart : List OrderItemCreate) :
    (cartRows oid k cart).all (fun r => itemFkOk items r.item_id)
      = cart.all (fun item => itemFkOk items (some item.id)) := by
  rw [cartRows, all_map_fn]
  conv_rhs => rw [← List.enumFrom_map_snd k cart, all_map_fn]

/-- Closed form of `create_order`: the transaction commits — appending the
header and the whole line-item batch and returning the fresh id — exactly
when all foreign keys hold, and otherwise it leaves the store untouched. -/
theorem create_order_eq (db : DB) (now : ℚ) (od : OrderCreate) :
    create_order db now od =
      (if customerFkOk db.customers od.customer_id
          && od.cart.all (fun item => itemFkOk db.items (some item.id)) then
        ({ db with
            orders := db.orders ++
              [mkOrderRow db.next_order_id now
                ((od.cart.map (fun item => item.quantity * item.price)).sum)
                od.discountPercentage od.customer_id],
            order_items := db.order_items ++
              cartRows db.next_order_id db.next_order_item_id od.cart,
            next_order_id := db.next_order_id + 1,
            next_order_item_id := db.next_order_item_id + od.cart.length },
          Except.ok db.next_order_id)
      else (db, Except.error ApiError.serverError)) := by
  cases hc : customerFkOk db.customers od.customer_id with
  | false => simp [create_order, hc]
  | true =>
    simp only [create_order, hc, if_true, Bool.true_and]
    rw [insertOrderItemsLoop_eq]
    simp only [cartRows_all_fk]
    cases hall : od.cart.all (fun item => itemFkOk db.items (some item.id)) with
    | false => simp [hall]
    | true => simp [hall]

/-- C1: the order header and all of its line items are committed together or
not at all.  When `create_order` fails — in particular when a line-item
insert fails after the header insert — the resulting store is exactly the
original one, so no state with the header but without (some of) its line
items is ever observable; when it succeeds, the store gains exactly the
header and one line item per cart entry, all referencing the new order id. -/
theorem create_order_atomic (db : DB) (now : ℚ) (od : OrderCreate) :
    (∀ e, (create_order db now od).2 = Except.error e →
      (create_order db now od).1 = db) ∧
    (∀ oid, (create_order db now od).2 = Except.ok oid →
      oid = db.next_order_id ∧
      (create_order db now od).1.orders =
        db.orders ++
          [mkOrderRow oid now
            ((od.cart.map (fun item => item.quantity * item.price)).sum)
            od.discountPercentage od.customer_id] ∧
      (create_order db now od).1.order_items =
        db.order_items ++ cartRows oid db.next_order_item_id od.cart ∧
      (cartRows oid db.next_order_item_id od.cart).length = od.cart.length ∧
      ∀ r ∈ cartRows oid db.next_order_item_id od.cart, r.order_id = oid) := by
  rw [create_order_eq]
  by_cases h : (customerFkOk db.customers od.customer_id
      && od.cart.all (fun item => itemFkOk db.items (some item.id))) = true
  · rw [if_pos h]
    refine ⟨fun e he => by simp at he, fun oid hok => ?_⟩
    simp only [Except.ok.injEq] at hok
    subst hok
    exact ⟨rfl, rfl, rfl, cartRows_length _ _ _, cartRows_order_id _ _ _⟩
  · rw [if_neg h]
    exact ⟨fun e _ => rfl, fun oid hok => by simp at hok⟩

/-- Witness for C1 at a concrete fault: on a store holding only items 1 and
2, the cart `odBadItem` references the nonexistent item 99, so the line-item
bulk insert fails after the header insert succeeded — the call errors and
the store is exactly the one from before the call. -/
theorem create_order_atomic_witness :
    (create_order dbItems12 0 odBadItem).2 = Except.error ApiError.serverError ∧
    (create_order dbItems12 0 odBadItem).1 = dbItems12 :=
  ⟨rfl, (create_order_atomic dbItems12 0 odBadItem).1
    ApiError.serverError rfl⟩

/-- C2 counterexample: `create_order` performs no input validation.  On the
empty store, the request with an empty cart is not rejected: it succeeds
with the fresh order id 1 and commits an order header (with subtotal 0),
contradicting "creating an order with an empty cart fails and no Order row
is created". -/
theorem create_order_empty_cart_accepted :
    (create_order emptyDB 0 odEmptyCart).2 = Except.ok 1 ∧
    (create_order emptyDB 0 odEmptyCart).1.orders.length = 1 ∧
    (create_order emptyDB 0 odEmptyCart).1.order_items = [] :=
  ⟨rfl, rfl, rfl⟩

/-- C2 amended: `create_order` applies no validation to the line list, the
quantities or the discount percentage.  Every request whose referential
constraints hold (existing `customer_id` and item ids) is accepted — empty
carts, `quantity ≤ 0` and `discount_percentage` outside `[0, 100]` included —
committing one header row and one line item per cart entry. -/
theorem create_order_no_validation (db : DB) (now : ℚ) (od : OrderCreate)
    (hc : customerFkOk db.customers od.customer_id = true)
    (hi : od.cart.all (fun item => itemFkOk db.items (some item.id)) = true) :
    (create_order db now od).2 = Except.ok db.next_order_id ∧
    (create_order db now od).1.orders.length = db.orders.length + 1 ∧
    (create_order db now od).1.order_items.length =
      db.order_items.length + od.cart.length := by
  rw [create_order_eq]
  simp [hc, hi, cartRows_length]

/-- Witness for C2's amended claim: the request `odInvalidValues` — quantity
−1 and discount 150% — is accepted on the store holding items 1 and 2. -/
theorem create_order_no_validation_witness :
    (create_order dbItems12 0 odInvalidValues).2 = Except.ok 1 ∧
    (create_order dbItems12 0 odInvalidValues).1.orders.length = 0 + 1 ∧
    (create_order dbItems12 0 odInvalidValues).1.order_items.length = 0 + 1 :=
  create_order_no_validation dbItems12 0 odInvalidValues (by decide) (by decide)

/-- C3: on success, the created header's `subtotal` is `Σ quantity × price`
computed strictly from the caller-supplied cart (the stored item catalog is
not consulted), `final_total = subtotal × (1 − discount_percentage/100)`,
`discount_amount = subtotal − final_total`, and the freshly inserted line
items' subtotals sum back to the header's subtotal.  Concretely, the
scenario cart `[(qty 2, price 10), (qty 1, price 5)]` at discount 10% yields
`subtotal = 25`, `discount_amount = 2.5`, `final_total = 22.5`. -/
theorem create_order_totals :
    (∀ (db : DB) (now : ℚ) (od : OrderCreate) (oid : Nat),
      (create_order db now od).2 = Except.ok oid →
      ∃ header : OrderRow,
        (create_order db now od).1.orders = db.orders ++ [header] ∧
        header.id = oid ∧
        header.subtotal =
          (od.cart.map (fun item => item.quantity * item.price)).sum ∧
        header.final_total =
          header.subtotal * (1 - od.discountPercentage / 100) ∧
        header.discount_amount = header.subtotal - header.final_total ∧
        (((create_order db now od).1.order_items.drop db.order_items.length).map
          (fun r => r.subtotal)).sum = header.subtotal) ∧
    ((create_order dbItems12 0 odScenario).1.orders.map
        (fun h => (h.subtotal, h.discount_amount, h.final_total))
      = [(25, 5/2, 45/2)]) := by
  constructor
  · intro db now od oid hok
    rw [create_order_eq] at hok ⊢
    by_cases h : (customerFkOk db.customers od.customer_id
        && od.cart.all (fun item => itemFkOk db.items (some item.id))) = true
    · rw [if_pos h] at hok ⊢
      simp only [Except.ok.injEq] at hok
      subst hok
      refine ⟨mkOrderRow db.next_order_id now
        ((od.cart.map (fun item => item.quantity * item.price)).sum)
        od.discountPercentage od.customer_id, ?_, ?_, ?_, ?_, ?_, ?_⟩
      · rfl
      · rfl
      · rfl
      · rfl
      · rfl
      · show (((db.order_items ++
            cartRows db.next_order_id db.next_order_item_id od.cart).drop
              db.order_items.length).map (fun r => r.subtotal)).sum = _
        rw [List.drop_left, cartRows_map_subtotal]
        rfl
    · rw [if_neg h] at hok
      simp at hok
  · rw [create_order_eq, if_pos (by rfl)]
    show List.map _ (dbItems12.orders ++ [mkOrderRow 1 0 _ 10 none]) = _
    simp only [dbItems12, emptyDB, odScenario, mkOrderRow, List.map_cons,
      List.map_nil, List.sum_cons, List.sum_nil, List.nil_append,
      List.map_append]
    norm_num

/-- Witness for C3 at the spec's concrete scenario (discharging the
success hypothesis by computation). -/
theorem create_order_totals_witness :
    ∃ header : OrderRow,
      (create_order dbItems12 0 odScenario).1.orders =
        dbItems12.orders ++ [header] ∧
      header.id = 1 ∧
      header.subtotal =
        (odScenario.cart.map (fun item => item.quantity * item.price)).sum ∧
      header.final_total =
        header.subtotal * (1 - odScenario.discountPercentage / 100) ∧
      header.discount_amount = header.subtotal - header.final_total ∧
      (((create_order dbItems12 0 odScenario).1.order_items.drop
          dbItems12.order_items.length).map (fun r => r.subtotal)).sum =
        header.subtotal :=
  create_order_totals.1 dbItems12 0 odScenario 1 rfl

/-- C4 counterexample: the claim "an order created exactly at `end_date`
00:00 is excluded" is false for the code.  With one order at midnight of day
0 and the query `start_date = 0, end_date = 0`, the claim demands
`total_orders = 0`; the code — which advances the user-facing inclusive end
date by one day — counts the order. -/
theorem sales_report_end_date_midnight_included :
    (get_sales_report dbOneOrderDay0 0 0).summary.total_orders = 1 ∧
    ¬ (get_sales_report dbOneOrderDay0 0 0).summary.total_orders = 0 :=
  ⟨rfl, by decide⟩

/-- C4 amended: the range really is half-open, but over
`[start_date, end_date + 1 day)`: the user-facing `end_date` is inclusive
and is internally advanced by one day.  An order at `start_date` 00:00 and
one at `end_date` 00:00 are included; one at `(end_date + 1)` 00:00 is
excluded.  The summary counts exactly the orders in that range, and the
claim's own example stands: with orders at day 0 and day 1 midnight,
querying `start = 0, end = 0` includes only the first. -/
theorem sales_report_range_half_open :
    (∀ s e : ℤ, s ≤ e →
      inSalesRange s (e + 1) (date_ts s) = true ∧
      inSalesRange s (e + 1) (date_ts e) = true ∧
      inSalesRange s (e + 1) (date_ts (e + 1)) = false) ∧
    (∀ (db : DB) (s e : ℤ),
      (get_sales_report db s e).summary.total_orders =
        (db.orders.filter (fun o => inSalesRange s (e + 1) o.created_at)).length) ∧
    (dbTwoOrdersDays01.orders.filter (fun o => inSalesRange 0 (0 + 1) o.created_at)
        = [mkOrderRow 1 0 10 0 none] ∧
      (get_sales_report dbTwoOrdersDays01 0 0).summary.total_orders = 1) := by
  refine ⟨fun s e hse => ?_, fun db s e => rfl, rfl, rfl⟩
  simp only [inSalesRange, date_ts, decide_eq_true_eq, decide_eq_false_iff_not]
  refine ⟨⟨le_refl _, ?_⟩, ⟨?_, ?_⟩, ?_⟩
  · exact_mod_cast Int.lt_add_one_of_le hse
  · exact_mod_cast hse
  · exact_mod_cast Int.lt_add_one_of_le (le_refl e)
  · rintro ⟨-, h2⟩
    exact lt_irrefl _ h2

/-- Witness for C4's amended claim at `start_date = end_date = 0`. -/
theorem sales_report_range_half_open_witness :
    inSalesRange 0 (0 + 1) (date_ts 0) = true ∧
    inSalesRange 0 (0 + 1) (date_ts 0) = true ∧
    inSalesRange 0 (0 + 1) (date_ts (0 + 1)) = false :=
  sales_report_range_half_open.1 0 0 (le_refl 0)

/-- C5: deleting a Customer or an Item never deletes or corrupts historical
orders and line items.  After a successful `delete_customer`, every order is
still present with all financial fields and timestamp unchanged and only
`customer_id` nulled (exactly when it referenced the deleted customer), and
`order_items` is untouched; after a successful `delete_item`, every line
item is still present with its captured `quantity`, `price_per_unit` and
`subtotal` unchanged and only `item_id` nulled, and `orders` is untouched. -/
theorem delete_preserves_history (db : DB) (cid iid : Nat) :
    ((delete_customer db cid).2 = Except.ok () →
      (delete_customer db cid).1.orders.length = db.orders.length ∧
      (delete_customer db cid).1.order_items = db.order_items ∧
      ∀ o ∈ db.orders, ∃ o' ∈ (delete_customer db cid).1.orders,
        o'.id = o.id ∧ o'.created_at = o.created_at ∧
        o'.subtotal = o.subtotal ∧
        o'.discount_percentage = o.discount_percentage ∧
        o'.final_total = o.final_total ∧
        o'.discount_amount = o.discount_amount ∧
        o'.customer_id =
          (if o.customer_id = some cid then none else o.customer_id)) ∧
    ((delete_item db iid).2 = Except.ok () →
      (delete_item db iid).1.order_items.length = db.order_items.length ∧
      (delete_item db iid).1.orders = db.orders ∧
      ∀ oi ∈ db.order_items, ∃ oi' ∈ (delete_item db iid).1.order_items,
        oi'.id = oi.id ∧ oi'.order_id = oi.order_id ∧
        oi'.quantity = oi.quantity ∧
        oi'.price_per_unit = oi.price_per_unit ∧
        oi'.subtotal = oi.subtotal ∧
        oi'.item_id = (if oi.item_id = some iid then none else oi.item_id)) := by
  constructor
  · intro hok
    by_cases h : db.customers.any (fun c => c.id == cid)
    · refine ⟨?_, ?_, ?_⟩
      · simp [delete_customer, h]
      · simp [delete_customer, h]
      · intro o ho
        refine ⟨if o.customer_id == some cid then { o with customer_id := none }
          else o, ?_, ?_⟩
        · simp only [delete_customer, if_pos h]
          exact List.mem_map_of_mem _ ho
        · by_cases hc : o.customer_id = some cid
          · simp [hc]
          · simp [hc, beq_eq_false_iff_ne.mpr hc]
    · simp [delete_customer, h] at hok
  · intro hok
    by_cases h : db.items.any (fun i => i.id == iid)
    · refine ⟨?_, ?_, ?_⟩
      · simp [delete_item, h]
      · simp [delete_item, h]
      · intro oi hoi
        refine ⟨if oi.item_id == some iid then { oi with item_id := none }
          else oi, ?_, ?_⟩
        · simp only [delete_item, if_pos h]
          exact List.mem_map_of_mem _ hoi
        · by_cases hc : oi.item_id = some iid
          · simp [hc]
          · simp [hc, beq_eq_false_iff_ne.mpr hc]
    · simp [delete_item, h] at hok

/-- Witness for C5 on `dbDeleteScenario` (customer 1 referenced by order 1,
item 1 referenced by line item 1): both deletes succeed and the history
survives as the theorem states. -/
theorem delete_preserves_history_witness :
    ((delete_customer dbDeleteScenario 1).1.orders.length
        = dbDeleteScenario.orders.length ∧
      (delete_customer dbDeleteScenario 1).1.order_items
        = dbDeleteScenario.order_items ∧
      ∀ o ∈ dbDeleteScenario.orders,
        ∃ o' ∈ (delete_customer dbDeleteScenario 1).1.orders,
          o'.id = o.id ∧ o'.created_at = o.created_at ∧
          o'.subtotal = o.subtotal ∧
          o'.discount_percentage = o.discount_percentage ∧
          o'.final_total = o.final_total ∧
          o'.discount_amount = o.discount_amount ∧
          o'.customer_id =
            (if o.customer_id = some 1 then none else o.customer_id)) ∧
    ((delete_item dbDeleteScenario 1).1.order_items.length
        = dbDeleteScenario.order_items.length ∧
      (delete_item dbDeleteScenario 1).1.orders = dbDeleteScenario.orders ∧
      ∀ oi ∈ dbDeleteScenario.order_items,
        ∃ oi' ∈ (delete_item dbDeleteScenario 1).1.order_items,
          oi'.id = oi.id ∧ oi'.order_id = oi.order_id ∧
          oi'.quantity = oi.quantity ∧
          oi'.price_per_unit = oi.price_per_unit ∧
          oi'.subtotal = oi.subtotal ∧
          oi'.item_id = (if oi.item_id = some 1 then none else oi.item_id)) :=
  ⟨(delete_preserves_history dbDeleteScenario 1 1).1 rfl,
   (delete_preserves_history dbDeleteScenario 1 1).2 rfl⟩

/-- C7 counterexample: `POST /api/v1/customers` is not gated by
authentication.  On the empty store, a request carrying no bearer token at
all is not rejected: it succeeds and a Customer row is created,
contradicting "a request without a valid bearer token is rejected and no
Customer row is created". -/
theorem create_customer_no_token_accepted :
    (create_customer_endpoint emptyDB none
        { name := "Alice", phone_number := none, email := none }).2 =
      Except.ok { id := 1, name := "Alice", phone_number := none, email := none } ∧
    (create_customer_endpoint emptyDB none
        { name := "Alice", phone_number := none, email := none }).1.customers.length
      = 1 :=
  ⟨rfl, rfl⟩

/-- C7 amended: creating a customer requires no authentication.  The handler
declares no dependency on the token layer, so the outcome is identical for
any token — valid, invalid or absent — and every request succeeds, appending
exactly the requested Customer row under the fresh serial id. -/
theorem create_customer_requires_no_auth (db : DB) (token : Option TokenWire)
    (cd : CustomerCreate) :
    create_customer_endpoint db token cd = create_customer_endpoint db none cd ∧
    (create_customer_endpoint db token cd).2 =
      Except.ok { id := db.next_customer_id, name := cd.name,
                  phone_number := cd.phone_number, email := cd.email } ∧
    (create_customer_endpoint db token cd).1.customers =
      db.customers ++
        [{ id := db.next_customer_id, name := cd.name,
           phone_number := cd.phone_number, email := cd.email }] :=
  ⟨rfl, rfl, rfl⟩

/-- The verdict of the modelled `jwt.decode`: the payload comes back exactly
when the token is well formed, signed with the given key under the (single)
allowed algorithm, and unexpired. -/
theorem jwt_decode_eq_some_iff (tw : TokenWire) (key a : String) (now : ℚ)
    (cl : TokenClaims) :
    jwt_decode tw key [a] now = some cl ↔
      tw = TokenWire.signed cl key a ∧ now < cl.exp := by
  cases tw with
  | malformed => simp [jwt_decode]
  | signed cl' k alg =>
    simp only [jwt_decode]
    by_cases hc : (k == key && [a].contains alg && decide (now < cl'.exp)) = true
    · rw [if_pos hc]
      simp only [Bool.and_eq_true, beq_iff_eq, decide_eq_true_eq] at hc
      obtain ⟨⟨rfl, halg⟩, hexp⟩ := hc
      have halg2 : alg = a := by simpa using halg
      subst halg2
      constructor
      · rintro h
        obtain rfl := Option.some.inj h
        exact ⟨rfl, hexp⟩
      · rintro ⟨h, -⟩
        obtain ⟨rfl, -, -⟩ := TokenWire.signed.inj h
        rfl
    · rw [if_neg hc]
      constructor
      · intro h; cases h
      · rintro ⟨h, hexp⟩
        obtain ⟨rfl, rfl, rfl⟩ := TokenWire.signed.inj h
        exact absurd (by simp [hexp]) hc

/-- C8: `get_current_user` yields a user exactly when the token is a well
formed JWT signed with the configured secret under the configured algorithm,
its embedded expiry has not passed, its payload carries a subject, and that
subject resolves to a stored Credential — in which case the yielded identity
is that stored Credential (its `username` and `role`).  In every other case —
malformed token, wrong key, wrong algorithm, expired token, missing or
unresolvable subject — it fails with the 401 error. -/
theorem get_current_user_spec (s : Settings) (db : DB) (now : ℚ)
    (tw : TokenWire) :
    (∀ u : UserInDB, get_current_user s db now tw = Except.ok u ↔
      ∃ cl : TokenClaims, tw = TokenWire.signed cl s.SECRET_KEY s.ALGORITHM ∧
        now < cl.exp ∧
        ∃ name : String, cl.sub = some name ∧ get_user db name = some u) ∧
    ((¬ ∃ cl : TokenClaims, tw = TokenWire.signed cl s.SECRET_KEY s.ALGORITHM ∧
        now < cl.exp ∧
        ∃ name : String, cl.sub = some name ∧
          ∃ u : UserInDB, get_user db name = some u) →
      get_current_user s db now tw = Except.error ApiError.unauthorized) := by
  have hmain : ∀ u : UserInDB, get_current_user s db now tw = Except.ok u ↔
      ∃ cl : TokenClaims, tw = TokenWire.signed cl s.SECRET_KEY s.ALGORITHM ∧
        now < cl.exp ∧
        ∃ name : String, cl.sub = some name ∧ get_user db name = some u := by
    intro u
    unfold get_current_user
    constructor
    · intro h
      split at h
      · exact Except.noConfusion h
      · rename_i payload hdec
        split at h
        · exact Except.noConfusion h
        · rename_i name hsub
          split at h
          · exact Except.noConfusion h
          · rename_i user hu
            obtain rfl := Except.ok.inj h
            rw [jwt_decode_eq_some_iff] at hdec
            obtain ⟨rfl, hexp⟩ := hdec
            exact ⟨payload, rfl, hexp, name, hsub, hu⟩
    · rintro ⟨cl, rfl, hexp, name, hsub, hu⟩
      have hdec : jwt_decode (TokenWire.signed cl s.SECRET_KEY s.ALGORITHM)
          s.SECRET_KEY [s.ALGORITHM] now = some cl :=
        (jwt_decode_eq_some_iff _ _ _ _ _).mpr ⟨rfl, hexp⟩
      split
      · rename_i hdec'
        rw [hdec] at hdec'; exact Option.noConfusion hdec'
      · rename_i payload hdec'
        rw [hdec] at hdec'
        obtain rfl := Option.some.inj hdec'
        split
        · rename_i hsub'
          rw [hsub] at hsub'; exact Option.noConfusion hsub'
        · rename_i name' hsub'
          rw [hsub] at hsub'
          obtain rfl := Option.some.inj hsub'
          split
          · rename_i hu'
            rw [hu] at hu'; exact Option.noConfusion hu'
          · rename_i user hu'
            rw [hu] at hu'
            obtain rfl := Option.some.inj hu'
            rfl
  refine ⟨hmain, fun hno => ?_⟩
  have hcases : (∃ u : UserInDB, get_current_user s db now tw = Except.ok u) ∨
      get_current_user s db now tw = Except.error ApiError.unauthorized := by
    unfold get_current_user
    split
    · exact Or.inr rfl
    · split
      · exact Or.inr rfl
      · split
        · exact Or.inr rfl
        · rename_i user _
          exact Or.inl ⟨user, rfl⟩
  cases hcases with
  | inl h =>
    obtain ⟨u, hu⟩ := h
    obtain ⟨cl, htw, hexp, name, hsub, hres⟩ := (hmain u).mp hu
    exact absurd ⟨cl, htw, hexp, name, hsub, u, hres⟩ hno
  | inr h => exact h

/-- Witness for C8: `tokenAlice` — signed with the configured key and
algorithm, unexpired at time 0, naming the stored user `alice` — verifies to
that stored credential, and `tokenWrongKey` is rejected with 401. -/
theorem get_current_user_spec_witness :
    (∃ cl : TokenClaims,
        tokenAlice = TokenWire.signed cl settingsW.SECRET_KEY settingsW.ALGORITHM ∧
        (0 : ℚ) < cl.exp ∧
        ∃ name : String, cl.sub = some name ∧
          get_user dbUsers name =
            some { id := 1, username := "alice", hashed_password := "h1",
                   role := "user" }) ∧
    get_current_user settingsW dbUsers 0 tokenWrongKey =
      Except.error ApiError.unauthorized :=
  ⟨((get_current_user_spec settingsW dbUsers 0 tokenAlice).1
      { id := 1, username := "alice", hashed_password := "h1",
        role := "user" }).mp rfl,
   (get_current_user_spec settingsW dbUsers 0 tokenWrongKey).2 (by
      rintro ⟨cl, hcl, -⟩
      obtain ⟨-, hk, -⟩ := TokenWire.signed.inj hcl
      exact absurd hk (by decide))⟩

/-- C9: the admin gate shared by every admin-only endpoint
(`Depends(security.get_current_admin_user)`) rejects every verified identity
whose role is not `admin` with the 403 error, and admits every identity
whose role is `admin`, returning it unchanged. -/
theorem get_current_admin_user_spec (u : UserInDB) :
    (u.role ≠ "admin" →
      get_current_admin_user u = Except.error ApiError.forbidden) ∧
    (u.role = "admin" → get_current_admin_user u = Except.ok u) := by
  constructor
  · intro h; simp [get_current_admin_user, h]
  · intro h; simp [get_current_admin_user, h]

/-- Witness for C9: the stored non-admin `alice` is rejected with 403 and
the stored admin `bob` is admitted. -/
theorem get_current_admin_user_spec_witness :
    get_current_admin_user
        { id := 1, username := "alice", hashed_password := "h1", role := "user" }
      = Except.error ApiError.forbidden ∧
    get_current_admin_user
        { id := 2, username := "bob", hashed_password := "h2", role := "admin" }
      = Except.ok
          { id := 2, username := "bob", hashed_password := "h2", role := "admin" } :=
  ⟨(get_current_admin_user_spec _).1 (by decide),
   (get_current_admin_user_spec _).2 rfl⟩

/-- `find?` over a map whose elements carry their key in the first
component reduces to `find?` over the keys. -/
theorem find?_map_key (g : Option Nat → Option Nat × Nat × ℚ)
    (hg : ∀ k, (g k).1 = k) (c : Option Nat) (keys : List (Option Nat)) :
    (keys.map g).find? (fun st => st.1 == c)
      = (keys.find? (fun k => k == c)).map g := by
  induction keys with
  | nil => rfl
  | cons k ks ih =>
    by_cases h : (k == c) = true
    · simp [List.find?, hg k, h]
    · simp only [Bool.not_eq_true] at h
      simp [List.find?, hg k, h, ih]

/-- `find?` with an equality test returns the sought element exactly when it
is present. -/
theorem find?_beq_of_mem {α : Type} [BEq α] [LawfulBEq α] (l : List α) (a : α)
    (h : a ∈ l) : l.find? (fun x => x == a) = some a := by
  induction l with
  | nil => cases h
  | cons b bs ih =>
    by_cases hba : (b == a) = true
    · simp [List.find?, hba, eq_of_beq hba]
    · simp only [Bool.not_eq_true] at hba
      have : a ∈ bs := by
        cases List.mem_cons.mp h with
        | inl heq => subst heq; simp at hba
        | inr hm => exact hm
      simp [List.find?, hba, ih this]

theorem find?_beq_of_not_mem {α : Type} [BEq α] [LawfulBEq α] (l : List α)
    (a : α) (h : a ∉ l) : l.find? (fun x => x == a) = none :=
  List.find?_eq_none.mpr (fun _ hx hbeq =>
    h (eq_of_beq hbeq ▸ hx))

/-- The per-customer row the report resolves to after the left join against
the grouped stats subquery. -/
def reportRowOf (orders : List OrderRow) (c : CustomerRow) :
    CustomerReportItem :=
  let mine := orders.filter (fun o => o.customer_id == some c.id)
  { id := c.id, name := c.name, phone_number := c.phone_number,
    email := c.email, total_orders := mine.length,
    total_spent := (mine.map (fun o => o.final_total)).sum }

/-- Resolving the left join: looking a customer up in the grouped stats
subquery and `COALESCE`-ing gives exactly the directly-computed row. -/
theorem left_join_row (db : DB) (sd ed : Option ℤ) (c : CustomerRow) :
    (match (statsSubquery db sd ed).find? (fun st => st.1 == some c.id) with
      | some st =>
        ({ id := c.id, name := c.name, phone_number := c.phone_number,
           email := c.email, total_orders := st.2.1, total_spent := st.2.2 }
          : CustomerReportItem)
      | none =>
        { id := c.id, name := c.name, phone_number := c.phone_number,
          email := c.email, total_orders := 0, total_spent := 0 })
      = reportRowOf (customerStatsOrders db sd ed) c := by
  unfold statsSubquery
  rw [find?_map_key _ (fun k => rfl) (some c.id)]
  by_cases hmem : some c.id ∈
      ((customerStatsOrders db sd ed).map (fun o => o.customer_id)).dedup
  · rw [find?_beq_of_mem _ _ hmem]
    rfl
  · rw [find?_beq_of_not_mem _ _ hmem]
    have hempty : (customerStatsOrders db sd ed).filter
        (fun o => o.customer_id == some c.id) = [] := by
      refine List.filter_eq_nil_iff.mpr (fun o ho hbeq => ?_)
      exact hmem (List.mem_dedup.mpr (List.mem_map.mpr
        ⟨o, ho, eq_of_beq hbeq⟩))
    simp [reportRowOf, hempty]

/-- C6: the customer report lists every customer exactly once — it is a
permutation of one directly-computed row per customer.  A customer's
`total_orders` and `total_spent` count precisely the orders whose
`customer_id` references them among the stats orders: all orders when no
full date range is supplied (lifetime totals), only the in-range ones when
it is.  Customers matching no order get zero totals (never null), and the
result is sorted by `total_spent` descending. -/
theorem get_customer_report_spec (db : DB) (sd ed : Option ℤ) :
    List.Perm (get_customer_report db sd ed)
      (db.customers.map (reportRowOf (customerStatsOrders db sd ed))) ∧
    (∀ c ∈ db.customers,
      reportRowOf (customerStatsOrders db sd ed) c =
        { id := c.id, name := c.name, phone_number := c.phone_number,
          email := c.email,
          total_orders := ((customerStatsOrders db sd ed).filter
            (fun o => o.customer_id == some c.id)).length,
          total_spent := (((customerStatsOrders db sd ed).filter
            (fun o => o.customer_id == some c.id)).map
              (fun o => o.final_total)).sum }) ∧
    List.Sorted (fun a b => b.total_spent ≤ a.total_spent)
      (get_customer_report db sd ed) ∧
    (sd = none ∨ ed = none → customerStatsOrders db sd ed = db.orders) ∧
    (∀ c ∈ db.customers,
      (∀ o ∈ customerStatsOrders db sd ed, o.customer_id ≠ some c.id) →
      ∃ r ∈ get_customer_report db sd ed,
        r.id = c.id ∧ r.total_orders = 0 ∧ r.total_spent = 0) := by
  have hrows : get_customer_report db sd ed =
      List.insertionSort (fun a b => b.total_spent ≤ a.total_spent)
        (db.customers.map (reportRowOf (customerStatsOrders db sd ed))) := by
    show List.insertionSort _ (db.customers.map _) = _
    congr 1
    refine List.map_eq_map_iff.mpr (fun c _ => ?_)
    exact left_join_row db sd ed c
  have hperm : List.Perm (get_customer_report db sd ed)
      (db.customers.map (reportRowOf (customerStatsOrders db sd ed))) := by
    rw [hrows]
    exact List.perm_insertionSort _ _
  refine ⟨hperm, fun c _ => rfl, ?_, ?_, ?_⟩
  · rw [hrows]
    haveI htot : IsTotal CustomerReportItem
        (fun a b => b.total_spent ≤ a.total_spent) :=
      ⟨fun a b => le_total b.total_spent a.total_spent⟩
    haveI htra : IsTrans CustomerReportItem
        (fun a b => b.total_spent ≤ a.total_spent) :=
      ⟨fun _ _ _ h1 h2 => le_trans h2 h1⟩
    exact List.sorted_insertionSort _ _
  · rintro (rfl | rfl)
    · rfl
    · cases sd <;> rfl
  · intro c hc hno
    refine ⟨reportRowOf (customerStatsOrders db sd ed) c,
      hperm.mem_iff.mpr (List.mem_map_of_mem _ hc), rfl, ?_, ?_⟩
    all_goals {
      have hempty : (customerStatsOrders db sd ed).filter
          (fun o => o.customer_id == some c.id) = [] :=
        List.filter_eq_nil_iff.mpr (fun o ho hbeq => hno o ho (eq_of_beq hbeq))
      simp [reportRowOf, hempty] }

/-- A store with two customers, of which only the first has an order. -/
def dbTwoCustomers : DB :=
  { emptyDB with
      customers := [{ id := 1, name := "Alice", phone_number := none, email := none },
                    { id := 2, name := "Bob", phone_number := none, email := none }],
      orders := [mkOrderRow 1 0 20 0 (some 1)],
      next_order_id := 2, next_customer_id := 3 }

/-- Witness for C6 on `dbTwoCustomers` with no date range: the stats orders
are the lifetime orders, and Bob — who has no orders — still appears, with
zero totals. -/
theorem get_customer_report_spec_witness :
    customerStatsOrders dbTwoCustomers none none = dbTwoCustomers.orders ∧
    ∃ r ∈ get_customer_report dbTwoCustomers none none,
      r.id = 2 ∧ r.total_orders = 0 ∧ r.total_spent = 0 :=
  ⟨(get_customer_report_spec dbTwoCustomers none none).2.2.2.1 (Or.inl rfl),
   (get_customer_report_spec dbTwoCustomers none none).2.2.2.2
     { id := 2, name := "Bob", phone_number := none, email := none }
     (by simp [dbTwoCustomers, emptyDB])
     (by decide)⟩

/-- Membership in the sales-breakdown join: a row appears exactly when its
line item, its item and its in-range order are all present and linked by the
join conditions. -/
theorem mem_salesJoinRows (db : DB) (s eExcl : ℤ)
    (r : OrderItemRow × ItemRow × OrderRow) :
    r ∈ salesJoinRows db s eExcl ↔
      r.1 ∈ db.order_items ∧ r.2.1 ∈ db.items ∧ r.2.2 ∈ db.orders ∧
      r.1.item_id = some r.2.1.id ∧ r.1.order_id = r.2.2.id ∧
      inSalesRange s eExcl r.2.2.created_at = true := by
  unfold salesJoinRows
  simp only [List.mem_flatMap]
  constructor
  · rintro ⟨oi, hoi, i, hi, o, ho, hr⟩
    by_cases hcond : (oi.item_id == some i.id && oi.order_id == o.id
        && inSalesRange s eExcl o.created_at) = true
    · rw [if_pos hcond] at hr
      obtain rfl := List.mem_singleton.mp hr
      simp only [Bool.and_eq_true, beq_iff_eq] at hcond
      exact ⟨hoi, hi, ho, hcond.1.1, hcond.1.2, hcond.2⟩
    · rw [if_neg hcond] at hr
      cases hr
  · rintro ⟨h1, h2, h3, h4, h5, h6⟩
    refine ⟨r.1, h1, r.2.1, h2, r.2.2, h3, ?_⟩
    rw [if_pos (by simp [h4, h5, h6])]
    simp

/-- Membership in `GET /orders/{id}/items`: the listing contains exactly the
projections of the line items of that order whose referenced item exists. -/
theorem mem_get_order_line_items (db : DB) (oid : Nat)
    (li : OrderDetailLineItem) :
    li ∈ get_order_line_items db oid ↔
      ∃ oi ∈ db.order_items, ∃ i ∈ db.items,
        oi.item_id = some i.id ∧ oi.order_id = oid ∧
        li = { id := oi.id, item_name := i.name, quantity := oi.quantity,
               price_per_unit := oi.price_per_unit, subtotal := oi.subtotal } := by
  unfold get_order_line_items
  simp only [List.mem_flatMap]
  constructor
  · rintro ⟨oi, hoi, i, hi, hr⟩
    by_cases hcond : (oi.item_id == some i.id && oi.order_id == oid) = true
    · rw [if_pos hcond] at hr
      obtain rfl := List.mem_singleton.mp hr
      simp only [Bool.and_eq_true, beq_iff_eq] at hcond
      exact ⟨oi, hoi, i, hi, hcond.1, hcond.2, rfl⟩
    · rw [if_neg hcond] at hr
      cases hr
  · rintro ⟨oi, hoi, i, hi, h4, h5, rfl⟩
    refine ⟨oi, hoi, i, hi, ?_⟩
    rw [if_pos (by simp [h4, h5])]
    simp

/-- C10: line items whose item reference has become null are invisible to
the read-side per-item views because of the inner join on `items`.  They
contribute to no row of the sales join (every join row carries an existing
item, so every `sales_by_item` entry names an existing item), while the
sales summary — computed from `orders` alone — is unchanged by any
replacement of the `order_items` table, so the order of a null-item line
still counts toward `total_revenue`; and the order's line-item listing
contains exactly (the projections of) its line items whose item exists. -/
theorem null_item_lines_excluded (db : DB) (s e : ℤ) (oid : Nat) :
    (∀ r ∈ salesJoinRows db s (e + 1),
      r.1.item_id = some r.2.1.id ∧ r.2.1 ∈ db.items) ∧
    (∀ oi ∈ db.order_items, oi.item_id = none →
      ∀ r ∈ salesJoinRows db s (e + 1), r.1 ≠ oi) ∧
    (∀ entry ∈ (get_sales_report db s e).sales_by_item,
      ∃ i ∈ db.items, entry.id = i.id ∧ entry.name = i.name) ∧
    (∀ ois : List OrderItemRow,
      (get_sales_report { db with order_items := ois } s e).summary =
        (get_sales_report db s e).summary) ∧
    (∀ li : OrderDetailLineItem, li ∈ get_order_line_items db oid ↔
      ∃ oi ∈ db.order_items, ∃ i ∈ db.items,
        oi.item_id = some i.id ∧ oi.order_id = oid ∧
        li = { id := oi.id, item_name := i.name, quantity := oi.quantity,
               price_per_unit := oi.price_per_unit, subtotal := oi.subtotal }) := by
  have hjoin : ∀ r ∈ salesJoinRows db s (e + 1),
      r.1.item_id = some r.2.1.id ∧ r.2.1 ∈ db.items := by
    intro r hr
    obtain ⟨-, h2, -, h4, -, -⟩ := (mem_salesJoinRows db s (e + 1) r).mp hr
    exact ⟨h4, h2⟩
  refine ⟨hjoin, ?_, ?_, fun ois => rfl, mem_get_order_line_items db oid⟩
  · intro oi _ hnull r hr hro
    obtain ⟨heq, -⟩ := hjoin r hr
    rw [hro, hnull] at heq
    cases heq
  · intro entry hentry
    have hmem : entry ∈ salesByItemGroups db s (e + 1) := by
      have := List.perm_insertionSort
        (fun a b : ReportSalesByItem =>
          b.total_revenue_from_item ≤ a.total_revenue_from_item)
        (salesByItemGroups db s (e + 1))
      exact this.mem_iff.mp hentry
    unfold salesByItemGroups at hmem
    obtain ⟨k, hk, rfl⟩ := List.mem_map.mp hmem
    have hk2 := List.mem_dedup.mp hk
    obtain ⟨r, hr, hkey⟩ := List.mem_map.mp hk2
    obtain ⟨-, hitem⟩ := hjoin r hr
    exact ⟨r.2.1, hitem, by rw [← hkey], by rw [← hkey]⟩

/-- Witness for C10 on `dbNullItemLine`: the line item with a live item
reference appears in the order-1 listing, and the join excludes the
null-item line: the listing has exactly one entry. -/
theorem null_item_lines_excluded_witness :
    ({ id := 1, item_name := "Tea", quantity := 2, price_per_unit := 10,
       subtotal := 20 } : OrderDetailLineItem) ∈
      get_order_line_items dbNullItemLine 1 ∧
    (get_order_line_items dbNullItemLine 1).length = 1 :=
  ⟨((null_item_lines_excluded dbNullItemLine 0 0 1).2.2.2.2 _).mpr
    ⟨{ id := 1, order_id := 1, item_id := some 1, quantity := 2,
       price_per_unit := 10, subtotal := 20 },
     List.mem_cons_self _ _,
     mkItem 1 "Tea" 10,
     List.mem_cons_self _ _,
     rfl, rfl, rfl⟩,
   rfl⟩

end Theeni
